import Mathlib

/-!
Shallow embedding of the credential-lifecycle core of `wecom-agent`
(`src/lib.rs` and `src/error.rs`).

Modelling conventions:
* `SystemTime` is nanoseconds since `UNIX_EPOCH` as a `Nat`; `Duration` is a
  nanosecond count as a `Nat`.  `Duration::from_secs` multiplies by 10^9 and
  `Duration::as_secs` divides by 10^9 (truncating), exactly as in Rust.
* `SystemTime::duration_since` is `durationSince`: it yields `Except.error`
  when the anchor lies in the future, mirroring `SystemTimeError`.
* Rust `Duration` subtraction panics on underflow; `durSub` returns `none`
  in that case, and `AccessToken.expire_in` therefore returns `Option Bool`
  (`none` = panic).
* Network I/O is modelled by passing the vendor responses in explicitly and
  recording each HTTP request as a `NetEvent` in an output trace, so that
  "how many fetches happened, in which order, with which URL" is provable.
* Each call to `SystemTime::now()` in the source receives its own time
  parameter, in source evaluation order.
-/

namespace Wecom

/-- Nanoseconds per second, the unit conversion used by Rust `Duration`. -/
def NANOS_PER_SEC : Nat := 1000000000

/-- Embedding of `Duration::from_secs`. -/
def fromSecs (n : Nat) : Nat := n * NANOS_PER_SEC

/-- Embedding of `Duration::as_secs` (truncating division). -/
def asSecs (d : Nat) : Nat := d / NANOS_PER_SEC

/-- Embedding of `SystemTime::duration_since`: `Err` when `earlier` is later
than `now`, otherwise the elapsed duration. -/
def durationSince (now earlier : Nat) : Except Unit Nat :=
  if now < earlier then .error () else .ok (now - earlier)

/-- Embedding of Rust `Duration` subtraction, which panics on underflow:
`none` models the panic. -/
def durSub (a b : Nat) : Option Nat :=
  if a < b then none else some (a - b)

/-- The panic message of Rust `Duration::sub` on underflow. -/
def durOverflowMsg : String := "overflow when subtracting durations"

/-- The message of the `.expect(...)` on the token value in `send`. -/
def expectMsg : String := "Access token should not be None."

/-- Embedding of `struct AccessToken` (lib.rs lines 35-40). -/
structure AccessToken where
  value : Option String
  timestamp : Nat
  lifetime : Nat
deriving DecidableEq, Repr

/-- Embedding of `AccessToken::update` (lib.rs lines 49-53): overwrites the
whole triple. -/
def AccessToken.update (_t : AccessToken) (token : String)
    (timestamp lifetime : Nat) : AccessToken :=
  ⟨some token, timestamp, lifetime⟩

/-- Embedding of `AccessToken::expired` (lib.rs lines 56-61). -/
def AccessToken.expired (tok : AccessToken) (now : Nat) : Bool :=
  match durationSince now tok.timestamp with
  | .ok duration => tok.lifetime ≤ duration
  | .error _ => false

/-- Embedding of `AccessToken::expire_in` (lib.rs lines 64-69).  The source
computes `(duration - self.lifetime) < Duration::from_secs(n)`, where the
subtraction is panicking `Duration` subtraction; `none` models that panic. -/
def AccessToken.expire_in (tok : AccessToken) (now : Nat) (n : Nat) :
    Option Bool :=
  match durationSince now tok.timestamp with
  | .ok duration =>
      (durSub duration tok.lifetime).map (fun d => decide (d < fromSecs n))
  | .error _ => some false

/-- Embedding of `impl Default for AccessToken` (lib.rs lines 77-85):
no value, timestamp `UNIX_EPOCH`, lifetime 7200 seconds. -/
def AccessToken.default : AccessToken :=
  ⟨none, 0, fromSecs 7200⟩

/-- Embedding of `error::Error` (error.rs lines 4-8). -/
structure Error where
  code : Int
  text : String
deriving DecidableEq, Repr

/-- The dynamic error type `Box<dyn StdError + Send + Sync>` as it is
actually inhabited by the source: an application `error::Error`, a
`SystemTimeError` propagated by `?`, or a reqwest transport or
deserialization error propagated by `?`. -/
inductive BoxedError where
  | app (e : Error)
  | clock
  | transport (msg : String)
deriving DecidableEq, Repr

/-- The rate-limit message built by `format!` in `update_token`
(lib.rs line 123), parameterized by the elapsed seconds it interpolates. -/
def rateLimitMsg (s : Nat) : String :=
  "Access token更新过于频繁。上次更新于" ++ toString s ++ "秒前。"

/-- Embedding of `struct AccessTokenResponse` (lib.rs lines 253-259). -/
structure AccessTokenResponse where
  errcode : Int
  errmsg : String
  access_token : String
  expires_in : Nat
deriving DecidableEq, Repr

/-- Embedding of `struct MsgSendResponse` (lib.rs lines 219-229). -/
structure MsgSendResponse where
  errcode : Int
  errmsg : String
  invaliduser : Option String
  invalidparty : Option String
  invalidtag : Option String
  unlicenseduser : Option String
  msgid : String
  response_code : Option String
deriving DecidableEq, Repr

/-- Embedding of `MsgSendResponse::error_code` (lib.rs lines 236-238). -/
def MsgSendResponse.error_code (r : MsgSendResponse) : Int := r.errcode

/-- Embedding of `MsgSendResponse::is_error` (lib.rs lines 232-234). -/
def MsgSendResponse.is_error (r : MsgSendResponse) : Bool := r.errcode ≠ 0

/-- Outcome of `reqwest::get(url).await?.json().await?` in `update_token`:
either a parsed `AccessTokenResponse` or a transport/deserialization error. -/
abbrev FetchResult : Type := Except String AccessTokenResponse

/-- Outcome of `client.post(url).json(msg).send().await?.json().await?` in
`send`: either a parsed `MsgSendResponse` or a transport error. -/
abbrev PostResult : Type := Except String MsgSendResponse

/-- A network request issued by the agent, with the URL it was sent to. -/
inductive NetEvent where
  | get (url : String)
  | post (url : String)
deriving DecidableEq, Repr

/-- The token-endpoint URL built in `update_token` (lib.rs lines 128-131). -/
def getTokenUrl (corp_id secret : String) : String :=
  "https://qyapi.weixin.qq.com/cgi-bin/gettoken?corpid=" ++ corp_id ++
    "&corpsecret=" ++ secret

/-- The send-endpoint URL built in `send` (lib.rs lines 172-180). -/
def sendUrl (token : String) : String :=
  "https://qyapi.weixin.qq.com/cgi-bin/message/send?access_token=" ++ token

/-- Embedding of `struct WecomAgent` (lib.rs lines 89-94).  The
`reqwest::Client` field carries no state relevant to this core and is
omitted; `RwLock` is modelled by the sequential state threading below. -/
structure WecomAgent where
  corp_id : String
  secret : String
  access_token : AccessToken
deriving DecidableEq, Repr

/-- Embedding of `WecomAgent::new` (lib.rs lines 98-105): pure construction,
default (empty) access token, no network request. -/
def WecomAgent.new (corp_id secret : String) : WecomAgent :=
  ⟨corp_id, secret, AccessToken.default⟩

/-- Embedding of `WecomAgent::update_token` (lib.rs lines 109-150).
`tCheck` is `SystemTime::now()` at the rate-limit check, `fetch` the vendor
response of the token GET, `tUpdate` the `SystemTime::now()` stamped into
the updated token.  Returns the result, the post-state, and the network
trace (the GET appears iff the fetch was actually attempted). -/
def WecomAgent.update_token (a : WecomAgent) (backoff_seconds : Nat)
    (tCheck : Nat) (fetch : FetchResult) (tUpdate : Nat) :
    Except BoxedError Unit × WecomAgent × List NetEvent :=
  match durationSince tCheck a.access_token.timestamp with
  | .error _ => (.error .clock, a, [])
  | .ok elapsed =>
    if asSecs elapsed < backoff_seconds then
      (.error (.app ⟨-9, rateLimitMsg (asSecs elapsed)⟩), a, [])
    else
      match fetch with
      | .error m =>
          (.error (.transport m), a, [.get (getTokenUrl a.corp_id a.secret)])
      | .ok response =>
          if response.errcode ≠ 0 then
            (.error (.app ⟨response.errcode, response.errmsg⟩), a,
              [.get (getTokenUrl a.corp_id a.secret)])
          else
            (.ok (),
             ⟨a.corp_id, a.secret,
               a.access_token.update response.access_token tUpdate
                 (fromSecs response.expires_in)⟩,
             [.get (getTokenUrl a.corp_id a.secret)])

/-- Result of a `send` call: the `Ok` response, a returned error, or a
panic (the `Duration` underflow in `expire_in`, or the `.expect` on the
token value), tagged with the panic message. -/
inductive SendResult where
  | ok (r : MsgSendResponse)
  | err (e : BoxedError)
  | panicked (msg : String)
deriving DecidableEq, Repr

/-- The environment of one `send` call: one time per `SystemTime::now()`
call in source order, and the vendor responses of the (up to) two token
fetches and two POSTs. -/
structure SendEnv where
  t1 : Nat
  t2 : Nat
  t3 : Nat
  t4 : Nat
  fetch1 : FetchResult
  post1 : PostResult
  t5 : Nat
  t6 : Nat
  fetch2 : FetchResult
  post2 : PostResult
deriving Repr

/-- The tail of `WecomAgent::send` starting at the URL composition
(lib.rs lines 171-214), after the freshness step left the agent in state
`a1` having emitted trace `ev1`.  Note that the source builds `url` once,
before the first POST, and reuses the same string for the retry after the
forced refresh. -/
def WecomAgent.send_posted (a1 : WecomAgent) (ev1 : List NetEvent)
    (env : SendEnv) : SendResult × WecomAgent × List NetEvent :=
  match a1.access_token.value with
  | none => (.panicked expectMsg, a1, ev1)
  | some token =>
    let url := sendUrl token
    match env.post1 with
    | .error m => (.err (.transport m), a1, ev1 ++ [.post url])
    | .ok response =>
      if response.error_code = 40014 then
        match a1.update_token 10 env.t5 env.fetch2 env.t6 with
        | (.error e, a2, ev2) =>
            (.err e, a2, ev1 ++ [.post url] ++ ev2)
        | (.ok _, a2, ev2) =>
          match env.post2 with
          | .error m =>
              (.err (.transport m), a2,
                ev1 ++ [.post url] ++ ev2 ++ [.post url])
          | .ok response2 =>
              (.ok response2, a2,
                ev1 ++ [.post url] ++ ev2 ++ [.post url])
      else (.ok response, a1, ev1 ++ [.post url])

/-- Embedding of `WecomAgent::send` (lib.rs lines 153-215).  The snapshot
check short-circuits left to right as in Rust. -/
def WecomAgent.send (a : WecomAgent) (env : SendEnv) :
    SendResult × WecomAgent × List NetEvent :=
  let token_should_update : Option Bool :=
    if a.access_token.value.isNone then some true
    else match a.access_token.expire_in env.t1 300 with
      | none => none
      | some true => some true
      | some false => some (a.access_token.expired env.t2)
  match token_should_update with
  | none => (.panicked durOverflowMsg, a, [])
  | some shouldUpdate =>
    match (if shouldUpdate then a.update_token 10 env.t3 env.fetch1 env.t4
           else (.ok (), a, [])) with
    | (.error e, a1, ev1) => (.err e, a1, ev1)
    | (.ok _, a1, ev1) => a1.send_posted ev1 env

end Wecom

namespace Wecom

/-- Helper: a successful `update_token` leaves the token value present
(it is overwritten with `Some(response.access_token)`). -/
theorem update_token_ok_isSome (a : WecomAgent) (b tc : Nat)
    (f : FetchResult) (tu : Nat) (u : Unit) (a1 : WecomAgent)
    (ev : List NetEvent)
    (h : a.update_token b tc f tu = (.ok u, a1, ev)) :
    a1.access_token.value.isSome = true := by
  unfold WecomAgent.update_token at h
  split at h
  · exact absurd h (by simp)
  · split at h
    · exact absurd h (by simp)
    · split at h
      · exact absurd h (by simp)
      · split at h
        · exact absurd h (by simp)
        · rw [Prod.mk.injEq, Prod.mk.injEq] at h
          rw [← h.2.1]
          rfl

/-- Helper: `update_token` never removes a present token value: in every
branch the state is either unchanged or updated to a `some` value. -/
theorem update_token_preserves_isSome (a : WecomAgent) (b tc : Nat)
    (f : FetchResult) (tu : Nat)
    (h : a.access_token.value.isSome = true) :
    ((a.update_token b tc f tu).2.1).access_token.value.isSome = true := by
  unfold WecomAgent.update_token
  split
  · exact h
  · split
    · exact h
    · split
      · exact h
      · split
        · exact h
        · rfl

end Wecom

namespace Wecom

/-- Claim C1: the spec says the retried POST after the sentinel code 40014
is issued with the new credential obtained by the forced refresh.  The code
evaluated at the scenario: fresh agent, first fetch yields T1, first POST
answered with errcode 40014, forced refresh succeeds and stores T2 — yet
both POST events in the trace carry the URL built from T1, while the final
state holds T2.  The retry reuses the stale URL string built before the
refresh. -/
theorem C1_retry_posts_with_stale_token :
    (WecomAgent.new "c" "s").send
      ⟨0, 0, fromSecs 100, fromSecs 100, .ok ⟨0, "ok", "T1", 7200⟩,
       .ok ⟨40014, "invalid access token", none, none, none, none, "m1", none⟩,
       fromSecs 200, fromSecs 200, .ok ⟨0, "ok", "T2", 7200⟩,
       .ok ⟨0, "ok", none, none, none, none, "m2", none⟩⟩
    = (.ok ⟨0, "ok", none, none, none, none, "m2", none⟩,
       ⟨"c", "s", ⟨some "T2", fromSecs 200, fromSecs 7200⟩⟩,
       [.get (getTokenUrl "c" "s"), .post (sendUrl "T1"),
        .get (getTokenUrl "c" "s"), .post (sendUrl "T1")]) := by
  rfl

/-- Claim C2: the spec says `expire_in n` is true iff a value is present
and the remaining time before expiry is less than `n`, and in particular
false (without failing) for an already-expired credential.  The code
evaluated: for a credential issued at 0 with lifetime 7200 s, at the very
moment of expiry (elapsed = lifetime, hence `expired` = true) it returns
`some true` with `n = 300`; and at elapsed 3600 s (unexpired, remaining
3600 s > 300 s, so the spec requires `false`) it panics — `none` — on
`Duration` underflow. -/
theorem C2_expire_in_code_eval :
    ((AccessToken.mk (some "T1") 0 (fromSecs 7200)).expired (fromSecs 7200)
        = true
      ∧ (AccessToken.mk (some "T1") 0 (fromSecs 7200)).expire_in
          (fromSecs 7200) 300 = some true)
    ∧ (AccessToken.mk (some "T1") 0 (fromSecs 7200)).expire_in
        (fromSecs 3600) 300 = none := by
  exact ⟨⟨by rfl, by rfl⟩, by rfl⟩

/-- Claim C3: the spec says a `send` issued while the cached credential is
present, unexpired and more than 300 s from expiry finds no refresh needed
and posts with the cached token without failing.  The code evaluated at
exactly that state (T1 issued at 0, lifetime 7200 s, send at 1 s): the
snapshot check panics on `Duration` underflow inside `expire_in`, issuing
no POST at all. -/
theorem C3_fresh_token_send_panics :
    (WecomAgent.mk "c" "s" (AccessToken.mk (some "T1") 0 (fromSecs 7200))).send
      ⟨fromSecs 1, 0, 0, 0, .error "", .error "", 0, 0, .error "", .error ""⟩
    = (.panicked durOverflowMsg,
       WecomAgent.mk "c" "s" (AccessToken.mk (some "T1") 0 (fromSecs 7200)),
       []) := by
  rfl

/-- Claim C7: a credential updated at time `t` with lifetime `L` is usable
(value present, `expired` false) at `t + d` for every `d < L`, and
`expired` at every time at least `t + L`. -/
theorem C7_lifetime_window (st0 : AccessToken) (v : String) (t L : Nat) :
    (∀ d, d < L → ((st0.update v t L).value.isSome = true
        ∧ (st0.update v t L).expired (t + d) = false))
    ∧ ∀ now, t + L ≤ now → (st0.update v t L).expired now = true := by
  constructor
  · intro d hd
    refine ⟨rfl, ?_⟩
    simp only [AccessToken.update, AccessToken.expired, durationSince]
    rw [if_neg (by omega)]
    simp only [decide_eq_false_iff_not, Nat.not_le]
    omega
  · intro now hnow
    simp only [AccessToken.update, AccessToken.expired, durationSince]
    rw [if_neg (by omega)]
    simp only [decide_eq_true_eq]
    omega

/-- Claim C7 witness: the theorem instantiated at a concrete credential,
`d = 3`, `L = 10`, `t = 100`, and a concrete later time. -/
theorem C7_lifetime_window_witness :
    ((AccessToken.default.update "T1" 100 10).value.isSome = true
      ∧ (AccessToken.default.update "T1" 100 10).expired (100 + 3) = false)
    ∧ (AccessToken.default.update "T1" 100 10).expired 250 = true :=
  ⟨(C7_lifetime_window AccessToken.default "T1" 100 10).1 3 (by decide),
   (C7_lifetime_window AccessToken.default "T1" 100 10).2 250 (by decide)⟩

/-- Claim C10: with the clock behind the stored timestamp, `expired` and
`expire_in` both return `false` (for every `n`), and `update_token` fails
with the propagated clock error, leaving the state unchanged and fetching
nothing. -/
theorem C10_clock_behind_timestamp :
    (∀ (tok : AccessToken) (now n : Nat), now < tok.timestamp →
       tok.expired now = false ∧ tok.expire_in now n = some false)
    ∧ ∀ (a : WecomAgent) (b tc : Nat) (f : FetchResult) (tu : Nat),
        tc < a.access_token.timestamp →
        a.update_token b tc f tu = (.error .clock, a, []) := by
  constructor
  · intro tok now n h
    constructor
    · simp only [AccessToken.expired, durationSince, if_pos h]
    · simp only [AccessToken.expire_in, durationSince, if_pos h]
  · intro a b tc f tu h
    simp only [WecomAgent.update_token, durationSince, if_pos h]

/-- Claim C10 witness: the theorem instantiated at a credential stamped at
time 50 observed at time 3, with `n = 7` and a concrete `update_token`
call. -/
theorem C10_clock_behind_timestamp_witness :
    ((AccessToken.mk (some "T") 50 9).expired 3 = false
      ∧ (AccessToken.mk (some "T") 50 9).expire_in 3 7 = some false)
    ∧ (WecomAgent.mk "c" "s" (AccessToken.mk (some "T") 50 9)).update_token
        10 3 (.error "down") 3
      = (.error .clock, WecomAgent.mk "c" "s" (AccessToken.mk (some "T") 50 9),
         []) :=
  ⟨C10_clock_behind_timestamp.1 (AccessToken.mk (some "T") 50 9) 3 7
     (by decide),
   C10_clock_behind_timestamp.2 (WecomAgent.mk "c" "s"
     (AccessToken.mk (some "T") 50 9)) 10 3 (.error "down") 3 (by decide)⟩

end Wecom

namespace Wecom

/-- Claim C4: a refresh that passes the rate-limit check but is answered by
the vendor with a non-zero error code fails with that code and message and
leaves the cached credential (the whole agent state) unchanged; the trace
shows the one attempted fetch. -/
theorem C4_vendor_reject_preserves_state (a : WecomAgent) (b tc : Nat)
    (resp : AccessTokenResponse) (tu d : Nat)
    (hd : durationSince tc a.access_token.timestamp = .ok d)
    (hb : b ≤ asSecs d) (he : resp.errcode ≠ 0) :
    a.update_token b tc (.ok resp) tu
      = (.error (.app ⟨resp.errcode, resp.errmsg⟩), a,
         [.get (getTokenUrl a.corp_id a.secret)]) := by
  unfold WecomAgent.update_token
  rw [hd]
  simp only [if_neg (Nat.not_lt.mpr hb), if_pos he]

/-- Claim C4 witness: the theorem instantiated at a concrete agent and a
vendor response with error code 40013. -/
theorem C4_vendor_reject_preserves_state_witness :
    (WecomAgent.mk "c" "s" (AccessToken.mk (some "T1") 0 (fromSecs 7200))).update_token
        10 (fromSecs 20) (.ok ⟨40013, "invalid corpid", "", 7200⟩) (fromSecs 20)
      = (.error (.app ⟨40013, "invalid corpid"⟩),
         WecomAgent.mk "c" "s" (AccessToken.mk (some "T1") 0 (fromSecs 7200)),
         [.get (getTokenUrl "c" "s")]) :=
  C4_vendor_reject_preserves_state
    (WecomAgent.mk "c" "s" (AccessToken.mk (some "T1") 0 (fromSecs 7200)))
    10 (fromSecs 20) ⟨40013, "invalid corpid", "", 7200⟩ (fromSecs 20)
    (fromSecs 20) (by rfl) (by decide) (by decide)

/-- Claim C5: when the elapsed duration `d` since the last update is
defined, a call to `update_token` with backoff `b` fails fast with the
code -9 rate-limit error carrying the elapsed seconds — touching neither
the state nor the network — whenever `d` is under `b` seconds; and
whenever at least `b` seconds have elapsed, the check passes and the
vendor fetch is attempted (exactly one GET appears in the trace). -/
theorem C5_backoff_rate_limit (a : WecomAgent) (b tc : Nat)
    (f : FetchResult) (tu d : Nat)
    (hd : durationSince tc a.access_token.timestamp = .ok d) :
    (d < fromSecs b →
      a.update_token b tc f tu
        = (.error (.app ⟨-9, rateLimitMsg (asSecs d)⟩), a, []))
    ∧ (fromSecs b ≤ d →
      (a.update_token b tc f tu).2.2
        = [.get (getTokenUrl a.corp_id a.secret)]) := by
  constructor
  · intro h
    have hs : asSecs d < b := by
      unfold asSecs
      unfold fromSecs at h
      exact Nat.div_lt_of_lt_mul (by rw [Nat.mul_comm] at h; exact h)
    unfold WecomAgent.update_token
    rw [hd]
    simp only [if_pos hs]
  · intro h
    have hs : ¬ asSecs d < b := by
      rw [Nat.not_lt]
      unfold asSecs
      unfold fromSecs at h
      exact (Nat.le_div_iff_mul_le (by norm_num [NANOS_PER_SEC])).mpr h
    unfold WecomAgent.update_token
    rw [hd]
    simp only [if_neg hs]
    cases f with
    | error m => rfl
    | ok r =>
      by_cases hr : r.errcode ≠ 0
      · simp only [if_pos hr]
      · simp only [if_neg hr]

/-- Claim C5 witness: the theorem applied at elapsed 5 s against backoff
10 s (rate-limited, untouched state, empty trace) and at elapsed 20 s
against backoff 10 s (fetch attempted). -/
theorem C5_backoff_rate_limit_witness :
    (WecomAgent.mk "c" "s" (AccessToken.mk (some "T1") 0 (fromSecs 7200))).update_token
        10 (fromSecs 5) (.ok ⟨0, "ok", "T2", 7200⟩) (fromSecs 5)
      = (.error (.app ⟨-9, rateLimitMsg (asSecs (fromSecs 5))⟩),
         WecomAgent.mk "c" "s" (AccessToken.mk (some "T1") 0 (fromSecs 7200)),
         [])
    ∧ ((WecomAgent.mk "c" "s" (AccessToken.mk (some "T1") 0 (fromSecs 7200))).update_token
        10 (fromSecs 20) (.ok ⟨0, "ok", "T2", 7200⟩) (fromSecs 20)).2.2
      = [.get (getTokenUrl "c" "s")] :=
  ⟨(C5_backoff_rate_limit
      (WecomAgent.mk "c" "s" (AccessToken.mk (some "T1") 0 (fromSecs 7200)))
      10 (fromSecs 5) (.ok ⟨0, "ok", "T2", 7200⟩) (fromSecs 5) (fromSecs 5)
      (by rfl)).1 (by decide),
   (C5_backoff_rate_limit
      (WecomAgent.mk "c" "s" (AccessToken.mk (some "T1") 0 (fromSecs 7200)))
      10 (fromSecs 20) (.ok ⟨0, "ok", "T2", 7200⟩) (fromSecs 20) (fromSecs 20)
      (by rfl)).2 (by decide)⟩

end Wecom


namespace Wecom

/-- Helper: whatever the responses, the trace of `send_posted` on a state
holding a token extends `ev1` with a POST to the URL built from that
token, followed by some suffix. -/
theorem send_posted_trace (a1 : WecomAgent) (ev1 : List NetEvent)
    (env : SendEnv) (tok : String)
    (h : a1.access_token.value = some tok) :
    ∃ rest, (a1.send_posted ev1 env).2.2
      = ev1 ++ [.post (sendUrl tok)] ++ rest := by
  unfold WecomAgent.send_posted
  rw [h]
  dsimp only
  cases hp : env.post1 with
  | error m => exact ⟨[], by simp⟩
  | ok response =>
    dsimp only
    by_cases h40 : response.error_code = 40014
    · rw [if_pos h40]
      rcases hu : a1.update_token 10 env.t5 env.fetch2 env.t6 with ⟨res, a2, ev2⟩
      cases res with
      | error e => exact ⟨ev2, by simp⟩
      | ok u =>
        cases hp2 : env.post2 with
        | error m => exact ⟨ev2 ++ [.post (sendUrl tok)], by simp⟩
        | ok r2 => exact ⟨ev2 ++ [.post (sendUrl tok)], by simp⟩
    · rw [if_neg h40]
      exact ⟨[], by simp⟩

/-- Helper: `send_posted` on a state holding a token neither loses the
token value nor reaches the `.expect` panic. -/
theorem send_posted_state_isSome (a1 : WecomAgent) (ev1 : List NetEvent)
    (env : SendEnv) (h : a1.access_token.value.isSome = true) :
    ((a1.send_posted ev1 env).2.1).access_token.value.isSome = true
    ∧ (a1.send_posted ev1 env).1 ≠ .panicked expectMsg := by
  obtain ⟨v, hv⟩ := Option.isSome_iff_exists.mp h
  unfold WecomAgent.send_posted
  rw [hv]
  dsimp only
  cases hp : env.post1 with
  | error m => exact ⟨h, by simp⟩
  | ok response =>
    dsimp only
    by_cases h40 : response.error_code = 40014
    · rw [if_pos h40]
      rcases hu : a1.update_token 10 env.t5 env.fetch2 env.t6 with ⟨res, a2, ev2⟩
      have ha2 : a2.access_token.value.isSome = true := by
        have hpres := update_token_preserves_isSome a1 10 env.t5 env.fetch2
          env.t6 h
        rw [hu] at hpres
        exact hpres
      cases res with
      | error e => exact ⟨ha2, by simp⟩
      | ok u =>
        cases hp2 : env.post2 with
        | error m => exact ⟨ha2, by simp⟩
        | ok r2 => exact ⟨ha2, by simp⟩
    · rw [if_neg h40]
      exact ⟨h, by simp⟩

/-- Helper: in every branch of `send`, the final state keeps a present
token value present, and the `.expect` panic on the token value is never
the result. -/
theorem send_state_isSome_and_no_expect (a : WecomAgent) (env : SendEnv) :
    (a.access_token.value.isSome = true →
      ((a.send env).2.1).access_token.value.isSome = true)
    ∧ (a.send env).1 ≠ .panicked expectMsg := by
  simp only [WecomAgent.send]
  split
  · exact ⟨fun h => h, by dsimp only; decide⟩
  case h_2 shouldUpdate heq =>
    split
    case h_1 e a1 ev1 heq2 =>
      split at heq2
      · constructor
        · intro h
          have hpres := update_token_preserves_isSome a 10 env.t3 env.fetch1
            env.t4 h
          rw [heq2] at hpres
          exact hpres
        · dsimp only
          exact fun hcon => SendResult.noConfusion hcon
      · exact absurd (congrArg Prod.fst heq2) (fun hcon =>
          Except.noConfusion hcon)
    case h_2 u a1 ev1 heq2 =>
      split at heq2
      case isTrue hs =>
        have ha1 := update_token_ok_isSome a 10 env.t3 env.fetch1 env.t4
          u a1 ev1 heq2
        exact ⟨fun _ => (send_posted_state_isSome a1 ev1 env ha1).1,
          (send_posted_state_isSome a1 ev1 env ha1).2⟩
      case isFalse hs =>
        have ha : a = a1 := by
          have := congrArg (fun p => p.2.1) heq2
          exact this
        have hn : a.access_token.value.isSome = true := by
          by_cases hnone : a.access_token.value.isNone
          · rw [if_pos hnone] at heq
            injection heq with hh
            exact absurd hh.symm hs
          · cases hval : a.access_token.value with
            | none => exact absurd (by rw [hval]; rfl) hnone
            | some v => rfl
        rw [← ha]
        exact ⟨fun _ => (send_posted_state_isSome a ev1 env hn).1,
          (send_posted_state_isSome a ev1 env hn).2⟩

end Wecom

namespace Wecom

/-- Claim C9: the token value is monotone — `update_token` never sets a
present value back to `none` (in any branch), and neither does `send`;
consequently, once the freshness step of `send` completes, the read of the
token value for the request URL always finds a value and the `.expect`
failure branch is unreachable: `send` never results in that panic. -/
theorem C9_token_value_monotone :
    (∀ (a : WecomAgent) (b tc : Nat) (f : FetchResult) (tu : Nat),
       a.access_token.value.isSome = true →
       ((a.update_token b tc f tu).2.1).access_token.value.isSome = true)
    ∧ (∀ (a : WecomAgent) (env : SendEnv),
       a.access_token.value.isSome = true →
       ((a.send env).2.1).access_token.value.isSome = true)
    ∧ ∀ (a : WecomAgent) (env : SendEnv),
        (a.send env).1 ≠ .panicked expectMsg :=
  ⟨fun a b tc f tu h => update_token_preserves_isSome a b tc f tu h,
   fun a env h => (send_state_isSome_and_no_expect a env).1 h,
   fun a env => (send_state_isSome_and_no_expect a env).2⟩

/-- Claim C9 witness: the theorem applied to a concrete agent holding a
token, through a rejected `update_token` and a complete `send`. -/
theorem C9_token_value_monotone_witness :
    (((WecomAgent.mk "c" "s" (AccessToken.mk (some "T1") 0 (fromSecs 7200))).update_token
        10 (fromSecs 20) (.ok ⟨40013, "invalid corpid", "", 7200⟩)
        (fromSecs 20)).2.1).access_token.value.isSome = true
    ∧ (((WecomAgent.mk "c" "s" (AccessToken.mk (some "T0") 0 (fromSecs 7200))).send
        ⟨fromSecs 8000, fromSecs 8000, fromSecs 8000, fromSecs 8000,
         .ok ⟨0, "ok", "T1", 7200⟩,
         .ok ⟨0, "ok", none, none, none, none, "m1", none⟩,
         0, 0, .error "", .error ""⟩).2.1).access_token.value.isSome = true
    ∧ ((WecomAgent.mk "c" "s" (AccessToken.mk (some "T0") 0 (fromSecs 7200))).send
        ⟨fromSecs 8000, fromSecs 8000, fromSecs 8000, fromSecs 8000,
         .ok ⟨0, "ok", "T1", 7200⟩,
         .ok ⟨0, "ok", none, none, none, none, "m1", none⟩,
         0, 0, .error "", .error ""⟩).1 ≠ .panicked expectMsg :=
  ⟨C9_token_value_monotone.1
     (WecomAgent.mk "c" "s" (AccessToken.mk (some "T1") 0 (fromSecs 7200)))
     10 (fromSecs 20) (.ok ⟨40013, "invalid corpid", "", 7200⟩) (fromSecs 20)
     (by rfl),
   C9_token_value_monotone.2.1
     (WecomAgent.mk "c" "s" (AccessToken.mk (some "T0") 0 (fromSecs 7200)))
     ⟨fromSecs 8000, fromSecs 8000, fromSecs 8000, fromSecs 8000,
      .ok ⟨0, "ok", "T1", 7200⟩,
      .ok ⟨0, "ok", none, none, none, none, "m1", none⟩,
      0, 0, .error "", .error ""⟩ (by rfl),
   C9_token_value_monotone.2.2
     (WecomAgent.mk "c" "s" (AccessToken.mk (some "T0") 0 (fromSecs 7200)))
     ⟨fromSecs 8000, fromSecs 8000, fromSecs 8000, fromSecs 8000,
      .ok ⟨0, "ok", "T1", 7200⟩,
      .ok ⟨0, "ok", none, none, none, none, "m1", none⟩,
      0, 0, .error "", .error ""⟩⟩

end Wecom

namespace Wecom

/-- Claim C8: a freshly constructed agent holds the default credential —
no value, epoch timestamp — hence nothing usable, and its construction is
a pure function issuing no request; on the first `send`, provided the
clock is at least the 10 s backoff past the epoch and the vendor answers
the fetch with a success response, the trace starts with exactly one token
GET followed by the first POST, which carries the just-fetched token. -/
theorem C8_fresh_agent (cid sec : String) :
    (WecomAgent.new cid sec).access_token = AccessToken.default
    ∧ (WecomAgent.new cid sec).access_token.value = none
    ∧ (WecomAgent.new cid sec).access_token.timestamp = 0
    ∧ ∀ (env : SendEnv) (resp : AccessTokenResponse),
        env.fetch1 = .ok resp → resp.errcode = 0 → 10 ≤ asSecs env.t3 →
        ((WecomAgent.new cid sec).send env).2.2.take 2
          = [.get (getTokenUrl cid sec), .post (sendUrl resp.access_token)] := by
  refine ⟨rfl, rfl, rfl, ?_⟩
  intro env resp h1 h2 h3
  have hu : (WecomAgent.new cid sec).update_token 10 env.t3 env.fetch1 env.t4
      = (.ok (),
         ⟨cid, sec, ⟨some resp.access_token, env.t4, fromSecs resp.expires_in⟩⟩,
         [.get (getTokenUrl cid sec)]) := by
    unfold WecomAgent.update_token
    unfold durationSince
    dsimp only [WecomAgent.new, AccessToken.default]
    rw [if_neg (Nat.not_lt_zero env.t3)]
    dsimp only
    rw [Nat.sub_zero, if_neg (Nat.not_lt.mpr h3), h1]
    dsimp only
    rw [if_neg (not_not_intro h2)]
    rfl
  simp only [WecomAgent.send]
  have hck : (WecomAgent.new cid sec).access_token.value.isNone = true := rfl
  rw [if_pos hck]
  dsimp only
  rw [show (if true = true
        then (WecomAgent.new cid sec).update_token 10 env.t3 env.fetch1 env.t4
        else (Except.ok (), WecomAgent.new cid sec, ([] : List NetEvent)))
      = (WecomAgent.new cid sec).update_token 10 env.t3 env.fetch1 env.t4
      from if_pos rfl]
  rw [hu]
  dsimp only
  obtain ⟨rest, hr⟩ := send_posted_trace
    ⟨cid, sec, ⟨some resp.access_token, env.t4, fromSecs resp.expires_in⟩⟩
    [.get (getTokenUrl cid sec)] env resp.access_token rfl
  rw [hr]
  simp

end Wecom

namespace Wecom

/-- Claim C8 witness: the theorem applied at a concrete corp id, secret,
environment and vendor response. -/
theorem C8_fresh_agent_witness :
    (WecomAgent.new "c" "s").access_token = AccessToken.default
    ∧ ((WecomAgent.new "c" "s").send
        ⟨0, 0, fromSecs 100, fromSecs 100, .ok ⟨0, "ok", "T1", 7200⟩,
         .ok ⟨0, "ok", none, none, none, none, "m1", none⟩,
         0, 0, .error "", .error ""⟩).2.2.take 2
      = [.get (getTokenUrl "c" "s"), .post (sendUrl "T1")] :=
  ⟨(C8_fresh_agent "c" "s").1,
   (C8_fresh_agent "c" "s").2.2.2
     ⟨0, 0, fromSecs 100, fromSecs 100, .ok ⟨0, "ok", "T1", 7200⟩,
      .ok ⟨0, "ok", none, none, none, none, "m1", none⟩,
      0, 0, .error "", .error ""⟩
     ⟨0, "ok", "T1", 7200⟩ rfl rfl (by decide)⟩

/-- Claim C6: retry depth is bounded by one.  Along the sentinel path —
fresh agent, successful first refresh yielding a token, first POST
answered with the sentinel code 40014 — if the forced refresh fails, its
error is what `send` returns; if it succeeds and the retried POST parses
to any response at all (any error code, the sentinel included), that
second response is returned as-is, and the trace shows exactly the two
POSTs and the two refresh traces, nothing further. -/
theorem C6_bounded_retry :
    (∀ (a : WecomAgent) (env : SendEnv) (a1 : WecomAgent)
       (ev1 : List NetEvent) (tok : String) (r1 : MsgSendResponse)
       (e : BoxedError) (a2 : WecomAgent) (ev2 : List NetEvent),
       a.access_token.value = none →
       a.update_token 10 env.t3 env.fetch1 env.t4 = (.ok (), a1, ev1) →
       a1.access_token.value = some tok →
       env.post1 = .ok r1 → r1.errcode = 40014 →
       a1.update_token 10 env.t5 env.fetch2 env.t6 = (.error e, a2, ev2) →
       a.send env = (.err e, a2, ev1 ++ [.post (sendUrl tok)] ++ ev2))
    ∧ ∀ (a : WecomAgent) (env : SendEnv) (a1 : WecomAgent)
        (ev1 : List NetEvent) (tok : String) (r1 : MsgSendResponse)
        (a2 : WecomAgent) (ev2 : List NetEvent) (r2 : MsgSendResponse),
        a.access_token.value = none →
        a.update_token 10 env.t3 env.fetch1 env.t4 = (.ok (), a1, ev1) →
        a1.access_token.value = some tok →
        env.post1 = .ok r1 → r1.errcode = 40014 →
        a1.update_token 10 env.t5 env.fetch2 env.t6 = (.ok (), a2, ev2) →
        env.post2 = .ok r2 →
        a.send env = (.ok r2, a2,
          ev1 ++ [.post (sendUrl tok)] ++ ev2 ++ [.post (sendUrl tok)]) := by
  constructor
  · intro a env a1 ev1 tok r1 e a2 ev2 hnone hu1 htok hp1 h40 hu2
    simp only [WecomAgent.send]
    rw [if_pos (by rw [hnone]; rfl :
      a.access_token.value.isNone = true)]
    dsimp only
    rw [show (if true = true
          then a.update_token 10 env.t3 env.fetch1 env.t4
          else (Except.ok (), a, ([] : List NetEvent)))
        = a.update_token 10 env.t3 env.fetch1 env.t4 from if_pos rfl]
    rw [hu1]
    dsimp only
    unfold WecomAgent.send_posted
    rw [htok]
    dsimp only
    rw [hp1]
    dsimp only
    rw [if_pos (by rw [MsgSendResponse.error_code, h40] :
      r1.error_code = 40014)]
    rw [hu2]
  · intro a env a1 ev1 tok r1 a2 ev2 r2 hnone hu1 htok hp1 h40 hu2 hp2
    simp only [WecomAgent.send]
    rw [if_pos (by rw [hnone]; rfl :
      a.access_token.value.isNone = true)]
    dsimp only
    rw [show (if true = true
          then a.update_token 10 env.t3 env.fetch1 env.t4
          else (Except.ok (), a, ([] : List NetEvent)))
        = a.update_token 10 env.t3 env.fetch1 env.t4 from if_pos rfl]
    rw [hu1]
    dsimp only
    unfold WecomAgent.send_posted
    rw [htok]
    dsimp only
    rw [hp1]
    dsimp only
    rw [if_pos (by rw [MsgSendResponse.error_code, h40] :
      r1.error_code = 40014)]
    rw [hu2]
    dsimp only
    rw [hp2]

end Wecom

namespace Wecom

/-- Claim C6 witness: the theorem applied at concrete scenarios — forced
refresh rejected by the rate limit (its error surfaces), and a retried
POST answered with the sentinel code again (returned as-is). -/
theorem C6_bounded_retry_witness :
    (WecomAgent.new "c" "s").send
      ⟨0, 0, fromSecs 100, fromSecs 100, .ok ⟨0, "ok", "T1", 7200⟩,
       .ok ⟨40014, "invalid", none, none, none, none, "m1", none⟩,
       fromSecs 105, fromSecs 105, .ok ⟨0, "ok", "T2", 7200⟩, .error ""⟩
    = (.err (.app ⟨-9, rateLimitMsg 5⟩),
       WecomAgent.mk "c" "s"
         (AccessToken.mk (some "T1") (fromSecs 100) (fromSecs 7200)),
       [.get (getTokenUrl "c" "s"), .post (sendUrl "T1")])
    ∧ (WecomAgent.new "c" "s").send
      ⟨0, 0, fromSecs 100, fromSecs 100, .ok ⟨0, "ok", "T1", 7200⟩,
       .ok ⟨40014, "invalid", none, none, none, none, "m1", none⟩,
       fromSecs 200, fromSecs 200, .ok ⟨0, "ok", "T2", 7200⟩,
       .ok ⟨40014, "invalid again", none, none, none, none, "m2", none⟩⟩
    = (.ok ⟨40014, "invalid again", none, none, none, none, "m2", none⟩,
       WecomAgent.mk "c" "s"
         (AccessToken.mk (some "T2") (fromSecs 200) (fromSecs 7200)),
       [.get (getTokenUrl "c" "s"), .post (sendUrl "T1"),
        .get (getTokenUrl "c" "s"), .post (sendUrl "T1")]) :=
  ⟨C6_bounded_retry.1 (WecomAgent.new "c" "s")
     ⟨0, 0, fromSecs 100, fromSecs 100, .ok ⟨0, "ok", "T1", 7200⟩,
      .ok ⟨40014, "invalid", none, none, none, none, "m1", none⟩,
      fromSecs 105, fromSecs 105, .ok ⟨0, "ok", "T2", 7200⟩, .error ""⟩
     (WecomAgent.mk "c" "s"
       (AccessToken.mk (some "T1") (fromSecs 100) (fromSecs 7200)))
     [.get (getTokenUrl "c" "s")] "T1"
     ⟨40014, "invalid", none, none, none, none, "m1", none⟩
     (.app ⟨-9, rateLimitMsg 5⟩)
     (WecomAgent.mk "c" "s"
       (AccessToken.mk (some "T1") (fromSecs 100) (fromSecs 7200)))
     [] rfl rfl rfl rfl rfl rfl,
   C6_bounded_retry.2 (WecomAgent.new "c" "s")
     ⟨0, 0, fromSecs 100, fromSecs 100, .ok ⟨0, "ok", "T1", 7200⟩,
      .ok ⟨40014, "invalid", none, none, none, none, "m1", none⟩,
      fromSecs 200, fromSecs 200, .ok ⟨0, "ok", "T2", 7200⟩,
      .ok ⟨40014, "invalid again", none, none, none, none, "m2", none⟩⟩
     (WecomAgent.mk "c" "s"
       (AccessToken.mk (some "T1") (fromSecs 100) (fromSecs 7200)))
     [.get (getTokenUrl "c" "s")] "T1"
     ⟨40014, "invalid", none, none, none, none, "m1", none⟩
     (WecomAgent.mk "c" "s"
       (AccessToken.mk (some "T2") (fromSecs 200) (fromSecs 7200)))
     [.get (getTokenUrl "c" "s")]
     ⟨40014, "invalid again", none, none, none, none, "m2", none⟩
     rfl rfl rfl rfl rfl rfl rfl⟩

end Wecom
